import Mathlib

/-!
Verification of the package-inventory and redemption core of the `deblive`
rental-tracking application, as a shallow embedding of the Python sources
(`db_handler.py`, `app.py`, `qr_email_sender.py`).

The relational tables (`users`, `user_packages`, `qr_codes`, `rentals`) are
modelled as lists of rows; each `DatabaseHandler` method becomes a pure
function from a `DB` value to a new `DB` value together with the method's
return value.  Email sending is modelled by an `email_attempted` flag on the
result (the source attempts the send exactly when it calls
`send_thank_you_email`); SMTP success or failure never affects control flow in
the source and is not modelled.  Timestamps are modelled by a logical clock
where ordering matters (`qr_codes.created_at`) and dropped where the source
only stamps them (`last_activity_time`).
-/

namespace DebLive

/-- Status of one `user_packages` row: the column holds `'available'` or
`'rented_out'`. -/
inductive PkgStatus where
  | available
  | rented_out
deriving DecidableEq, Repr

/-- One row of `user_packages` (`id`, `user_id`, `package_type`, `status`).
`last_activity_time` is stamped by every mutation in the source but never read
by control flow, so it is not modelled. -/
structure PackageUnit where
  id : Nat
  user_id : Nat
  package_type : String
  status : PkgStatus
deriving DecidableEq, Repr

/-- One row of `users`; `rental_status` is the TINYINT column
(0 = Not Active, 1 = Active Rental, 2 = Returned).  Identity columns
(name, email, city) never influence control flow beyond row existence and are
not modelled. -/
structure UserRow where
  id : Nat
  rental_status : Nat
deriving DecidableEq, Repr

/-- One row of `qr_codes`.  `created_seq` is a logical clock standing for
`created_at` (used by `ORDER BY created_at DESC`); the stored image and
`qr_data` (equal to the code number in the source) are not modelled. -/
structure QrRow where
  id : Nat
  user_id : Nat
  qr_code_number : String
  is_active : Bool
  created_seq : Nat
deriving DecidableEq, Repr

/-- One row of `rentals` (only the columns read back by the source:
owner and `status`, which is `"checked_out"` or `"returned"`). -/
structure RentalRow where
  id : Nat
  user_id : Nat
  status : String
deriving DecidableEq, Repr

/-- The database state: the four tables, AUTO_INCREMENT counters, and the
logical clock for `created_at` stamps. -/
structure DB where
  users : List UserRow
  packages : List PackageUnit
  qr_codes : List QrRow
  rentals : List RentalRow
  next_package_id : Nat
  next_qr_id : Nat
  next_rental_id : Nat
  clock : Nat
deriving DecidableEq, Repr

/-- `SELECT COUNT(*) WHERE id = user_id` on `users`: does the user row exist. -/
def userExists (db : DB) (uid : Nat) : Bool :=
  db.users.any (fun u => u.id == uid)

/-- The `rental_status` column of the user's row, when the row exists. -/
def rentalStatusOf (db : DB) (uid : Nat) : Option Nat :=
  (db.users.find? (fun u => u.id == uid)).map (fun u => u.rental_status)

/-- `UPDATE users SET rental_status = v WHERE id = uid`. -/
def setUserStatus (users : List UserRow) (uid : Nat) (v : Nat) : List UserRow :=
  users.map (fun u => if u.id == uid then { u with rental_status := v } else u)

/-- Lexicographic order on character lists by code point, modelling the SQL
ordering of `package_type` strings in `ORDER BY package_type, id`. -/
def charsLt : List Char → List Char → Bool
  | [], [] => false
  | [], _ :: _ => true
  | _ :: _, [] => false
  | c :: cs, d :: ds => c.toNat < d.toNat || (c.toNat == d.toNat && charsLt cs ds)

/-- Strict string order by code point (SQL collation model). -/
def strLt (a b : String) : Bool := charsLt a.data b.data

/-- The comparison used by `ORDER BY package_type, id` on `user_packages`. -/
def pkgLe (p q : PackageUnit) : Bool :=
  strLt p.package_type q.package_type ||
    (p.package_type == q.package_type && p.id ≤ q.id)

/-- Insertion step of the `ORDER BY package_type, id` sort. -/
def insertPkg (p : PackageUnit) : List PackageUnit → List PackageUnit
  | [] => [p]
  | q :: t => if pkgLe p q then p :: q :: t else q :: insertPkg p t

/-- `ORDER BY package_type, id` on a list of `user_packages` rows. -/
def sortPkgs : List PackageUnit → List PackageUnit
  | [] => []
  | p :: t => insertPkg p (sortPkgs t)

/-- The return value of `get_user_package_summary` (`db_handler.py:466`):
the `package_types` sub-dictionary is derived per-type debug detail that no
caller branches on (spec §9) and is not modelled. -/
structure Summary where
  total_packages : Nat
  available_packages : Nat
  rented_packages : Nat
  all_returned : Bool
  has_packages : Bool
deriving DecidableEq, Repr

/-- `get_user_package_summary` (`db_handler.py:466-547`): counts the user's
`user_packages` rows in total and by status; `has_packages := total > 0`;
`all_returned` starts `True`, is cleared by any `rented_out` group, and is
finally recomputed as `rented_packages == 0` when the user has packages. -/
def get_user_package_summary (db : DB) (uid : Nat) : Summary :=
  let total := (db.packages.filter (fun p => p.user_id == uid)).length
  let avail :=
    (db.packages.filter (fun p => p.user_id == uid && p.status == PkgStatus.available)).length
  let rented :=
    (db.packages.filter (fun p => p.user_id == uid && p.status == PkgStatus.rented_out)).length
  { total_packages := total
    available_packages := avail
    rented_packages := rented
    all_returned := if 0 < total then decide (rented = 0) else true
    has_packages := decide (0 < total) }

/-- `add_user_packages` (`db_handler.py:412-439`): `for _ in range(quantity)`
inserts one `'available'` row per iteration (an empty range when
`quantity <= 0`), commits, and returns `True`.  No quantity validation exists
in the source. -/
def add_user_packages (db : DB) (uid : Nat) (package_type : String) (quantity : Int) :
    DB × Bool :=
  let n := quantity.toNat
  let newPkgs := (List.range n).map (fun i =>
    { id := db.next_package_id + i
      user_id := uid
      package_type := package_type
      status := PkgStatus.available : PackageUnit })
  ({ db with
      packages := db.packages ++ newPkgs
      next_package_id := db.next_package_id + n }, true)

/-- "Determine how many to check out / check in"
(`db_handler.py:579-582`, `691-694`): `None` means all; otherwise the request
is clamped with `min` against the number of selectable rows. -/
def requestedCount (package_count : Option Int) (len : Nat) : Int :=
  match package_count with
  | none => (len : Int)
  | some c => min c (len : Int)

/-- The tuple returned by `checkout_user_packages`
(`success, message, packages_checked_out`). -/
structure CheckoutRes where
  success : Bool
  message : String
  count : Nat
deriving DecidableEq, Repr

/-- `checkout_user_packages` (`db_handler.py:549-646`): selects the user's
`available` rows `ORDER BY package_type, id`; returns failure when none exist;
`package_count = None` means all, otherwise it is clamped by `min` and rejected
when `<= 0`; the selected rows become `rented_out`, the user's `rental_status`
becomes 1, and a `rentals` row is inserted when the user has an active QR
code.  All condition tests are hoisted into `let`s; the early returns are the
final `if` chain, which preserves the source's control flow. -/
def checkout_user_packages (db : DB) (uid : Nat) (package_count : Option Int) :
    DB × CheckoutRes :=
  let available_packages :=
    sortPkgs (db.packages.filter (fun p => p.user_id == uid && p.status == PkgStatus.available))
  let count : Int := requestedCount package_count available_packages.length
  let package_ids := ((available_packages.take count.toNat).map (fun p => p.id))
  let pkgs' := db.packages.map (fun p =>
    if package_ids.contains p.id then { p with status := PkgStatus.rented_out } else p)
  let users' := setUserStatus db.users uid 1
  let has_qr := db.qr_codes.any (fun r => r.user_id == uid && r.is_active)
  let rentals' :=
    if has_qr then
      db.rentals ++ [{ id := db.next_rental_id, user_id := uid, status := "checked_out" }]
    else db.rentals
  if available_packages = [] then
    (db, { success := false, message := "No available packages to check out", count := 0 })
  else if count ≤ 0 then
    (db, { success := false, message := "Invalid package count", count := 0 })
  else
    ({ db with
        packages := pkgs'
        users := users'
        rentals := rentals'
        next_rental_id := if has_qr then db.next_rental_id + 1 else db.next_rental_id },
     { success := true
       message := "Successfully checked out " ++ Nat.repr count.toNat ++ " packages"
       count := count.toNat })

/-- The tuple returned by `checkin_user_packages`
(`success, message, packages_checked_in, all_returned`), plus the
`email_attempted` flag recording whether the source reached the
`send_thank_you_email` call. -/
structure CheckinRes where
  success : Bool
  message : String
  count : Nat
  all_returned : Bool
  email_attempted : Bool
deriving DecidableEq, Repr

/-- `checkin_user_packages` (`db_handler.py:648-847`): fails when the user owns
no rows at all, then when none are `rented_out`; `package_count = None` means
all, clamped by `min`, rejected when `<= 0`; the selected rows (ordered
`package_type, id`) become `available`; the remaining `rented_out` rows are
re-counted from the updated table, giving `all_returned`; on `all_returned` the
user's `rental_status` becomes 2 and open `rentals` rows become `returned`,
otherwise `rental_status` becomes 1; the thank-you email is attempted exactly
when `all_returned and total_packages > 0` and the user row is found. -/
def checkin_user_packages (db : DB) (uid : Nat) (package_count : Option Int) :
    DB × CheckinRes :=
  let total_packages := (db.packages.filter (fun p => p.user_id == uid)).length
  let rented_packages :=
    sortPkgs (db.packages.filter (fun p => p.user_id == uid && p.status == PkgStatus.rented_out))
  let count : Int := requestedCount package_count rented_packages.length
  let package_ids := ((rented_packages.take count.toNat).map (fun p => p.id))
  let pkgs' := db.packages.map (fun p =>
    if package_ids.contains p.id then { p with status := PkgStatus.available } else p)
  let actual_rented_remaining :=
    (pkgs'.filter (fun p => p.user_id == uid && p.status == PkgStatus.rented_out)).length
  let all_returned := decide (actual_rented_remaining = 0)
  let users' := if all_returned then setUserStatus db.users uid 2 else setUserStatus db.users uid 1
  let rentals' :=
    if all_returned then
      db.rentals.map (fun r =>
        if r.user_id == uid && r.status == "checked_out" then { r with status := "returned" }
        else r)
    else db.rentals
  let email_attempted := all_returned && decide (0 < total_packages) && userExists db uid
  if total_packages = 0 then
    (db, { success := false, message := "User has no packages in inventory", count := 0,
           all_returned := true, email_attempted := false })
  else if rented_packages = [] then
    (db, { success := false, message := "No rented packages to check in", count := 0,
           all_returned := true, email_attempted := false })
  else if count ≤ 0 then
    (db, { success := false, message := "Invalid package count", count := 0,
           all_returned := false, email_attempted := false })
  else
    ({ db with packages := pkgs', users := users', rentals := rentals' },
     { success := true
       message :=
         "Successfully checked in " ++ Nat.repr count.toNat ++ " packages" ++
           (if all_returned then
             " - All " ++ Nat.repr total_packages ++
               " packages are now available! Thank you email sent."
           else " - " ++ Nat.repr actual_rented_remaining ++ " packages still checked out")
       count := count.toNat
       all_returned := all_returned
       email_attempted := email_attempted })

/-- `update_package_status` (`db_handler.py:901-930`): raises `ValueError` for
a status outside `['available', 'rented_out']` (the `Except.error` case),
otherwise sets the row's status and returns `True`. -/
def update_package_status (db : DB) (package_id : Nat) (new_status : String) :
    Except String (DB × Bool) :=
  if new_status ≠ "available" ∧ new_status ≠ "rented_out" then
    Except.error "Invalid status. Must be available or rented_out."
  else
    let st := if new_status == "available" then PkgStatus.available else PkgStatus.rented_out
    Except.ok
      ({ db with
          packages := db.packages.map (fun p =>
            if p.id == package_id then { p with status := st } else p) }, true)

/-- Outcome of a Flask route: the JSON `success` flag, the HTTP error code when
one is returned, and whether the route reached a `send_thank_you_email` call. -/
structure RouteRes where
  success : Bool
  http_error : Option Nat
  email_attempted : Bool
deriving DecidableEq, Repr

/-- `update_package_status_api` (`app.py:956-1083`), the single-unit direct
status edit: 400 on a bad status value, 404 when the package id is unknown;
otherwise the row is set to the requested status unconditionally.  When the new
status is `'available'`, the owner's summary is recomputed and, if
`has_packages and all_returned and total_packages > 0`, the owner's
`rental_status` becomes 2, open `rentals` rows become `returned`, and the
thank-you email is attempted when the owner's user row is found.  The route
replies success whether or not the email step ran. -/
def update_package_status_api (db : DB) (package_id : Nat) (status_param : Option String) :
    DB × RouteRes :=
  match status_param with
  | none => (db, { success := false, http_error := some 400, email_attempted := false })
  | some new_status =>
    if new_status ≠ "available" ∧ new_status ≠ "rented_out" then
      (db, { success := false, http_error := some 400, email_attempted := false })
    else
      match db.packages.find? (fun p => p.id == package_id) with
      | none => (db, { success := false, http_error := some 404, email_attempted := false })
      | some pkg =>
        let uid := pkg.user_id
        match update_package_status db package_id new_status with
        | Except.error _ =>
          (db, { success := false, http_error := some 500, email_attempted := false })
        | Except.ok (db1, _) =>
          if new_status == "available" then
            let summary := get_user_package_summary db1 uid
            if summary.has_packages && summary.all_returned &&
                decide (0 < summary.total_packages) then
              let db2 := { db1 with
                users := setUserStatus db1.users uid 2
                rentals := db1.rentals.map (fun r =>
                  if r.user_id == uid && r.status == "checked_out" then
                    { r with status := "returned" }
                  else r) }
              let email := userExists db2 uid
              (db2, { success := true, http_error := none, email_attempted := email })
            else
              (db1, { success := true, http_error := none, email_attempted := false })
          else
            (db1, { success := true, http_error := none, email_attempted := false })

/-- `reset_rental_status` (`app.py:1331-1422`): 400 when the user has no
packages; otherwise every one of the user's `user_packages` rows becomes
`available` regardless of current status, the user's `rental_status` becomes 0,
and the route validates the committed state (500 if any row were still
`rented_out`).  The route body contains no call to the email handler, so
`email_attempted` is always `false`. -/
def reset_rental_status (db : DB) (uid : Nat) : DB × RouteRes :=
  let current_summary := get_user_package_summary db uid
  if current_summary.has_packages = false then
    (db, { success := false, http_error := some 400, email_attempted := false })
  else
    let pkgs' := db.packages.map (fun p =>
      if p.user_id == uid then { p with status := PkgStatus.available } else p)
    let db' := { db with packages := pkgs', users := setUserStatus db.users uid 0 }
    let final_summary := get_user_package_summary db' uid
    if final_summary.rented_packages ≠ 0 then
      (db', { success := false, http_error := some 500, email_attempted := false })
    else
      (db', { success := true, http_error := none, email_attempted := false })

/-- The database handle together with the storage layer's failure mode: when
`storage_fail = some msg`, every SQL statement raises `mysql.connector.Error`
with that message, which each `DatabaseHandler` method re-raises as
`Exception("Database error: ...")` (e.g. `db_handler.py:545-547`). -/
structure Env where
  db : DB
  storage_fail : Option String
deriving DecidableEq, Repr

/-- `get_user_package_summary` as seen by a caller that must survive raised
exceptions: errors exactly when the storage layer fails. -/
def get_user_package_summaryE (env : Env) (uid : Nat) : Except String Summary :=
  match env.storage_fail with
  | some e => Except.error ("Database error: " ++ e)
  | none => Except.ok (get_user_package_summary env.db uid)

/-- `checkout_user_packages` with the storage failure channel
(`db_handler.py:639-646` re-raises on any error). -/
def checkout_user_packagesE (env : Env) (uid : Nat) (package_count : Option Int) :
    Except String (Env × CheckoutRes) :=
  match env.storage_fail with
  | some e => Except.error ("Database error: " ++ e)
  | none =>
    let r := checkout_user_packages env.db uid package_count
    Except.ok ({ env with db := r.1 }, r.2)

/-- `checkin_user_packages` with the storage failure channel
(`db_handler.py:840-847` re-raises on any error). -/
def checkin_user_packagesE (env : Env) (uid : Nat) (package_count : Option Int) :
    Except String (Env × CheckinRes) :=
  match env.storage_fail with
  | some e => Except.error ("Database error: " ++ e)
  | none =>
    let r := checkin_user_packages env.db uid package_count
    Except.ok ({ env with db := r.1 }, r.2)

/-- The `try:` body of `update_rental_status_new` (`db_handler.py:861-895`):
fetch the summary, reject a user with no packages, then dispatch on the action
string, guarding each branch on the summary and forwarding the dispatched
operation's `(success, message)`. -/
def update_rental_status_new_body (env : Env) (uid : Nat) (action : String) :
    Except String (Env × (Bool × String)) :=
  match get_user_package_summaryE env uid with
  | Except.error e => Except.error e
  | Except.ok summary =>
    if summary.has_packages = false then
      Except.ok (env, (false, "User has no packages in inventory"))
    else if action = "checkout_all" then
      if summary.available_packages = 0 then
        Except.ok (env, (false, "No packages available to check out"))
      else
        match checkout_user_packagesE env uid none with
        | Except.error e => Except.error e
        | Except.ok r => Except.ok (r.1, (r.2.success, r.2.message))
    else if action = "checkin_all" then
      if summary.rented_packages = 0 then
        Except.ok (env, (false, "No packages currently rented"))
      else
        match checkin_user_packagesE env uid none with
        | Except.error e => Except.error e
        | Except.ok r => Except.ok (r.1, (r.2.success, r.2.message))
    else if action = "checkout_one" then
      if summary.available_packages = 0 then
        Except.ok (env, (false, "No packages available to check out"))
      else
        match checkout_user_packagesE env uid (some 1) with
        | Except.error e => Except.error e
        | Except.ok r => Except.ok (r.1, (r.2.success, r.2.message))
    else if action = "checkin_one" then
      if summary.rented_packages = 0 then
        Except.ok (env, (false, "No packages currently rented"))
      else
        match checkin_user_packagesE env uid (some 1) with
        | Except.error e => Except.error e
        | Except.ok r => Except.ok (r.1, (r.2.success, r.2.message))
    else
      Except.ok (env, (false, "Invalid action: " ++ action))

/-- `update_rental_status_new` (`db_handler.py:849-899`): the `try/except`
wrapper around the dispatch body; any raised exception is caught and turned
into `(False, f"Error: {err}")`. -/
def update_rental_status_new (env : Env) (uid : Nat) (action : String) :
    Env × (Bool × String) :=
  match update_rental_status_new_body env uid action with
  | Except.ok r => r
  | Except.error e => (env, (false, "Error: " ++ e))

/-- `update_rental_status` (`db_handler.py:154-191`), the deprecated legacy
entry point: status 1 dispatches `checkout_all`, status 2 `checkin_all`,
status 0 directly sets all of the user's rows to `available` and
`rental_status` to 0 (returning `False` when the storage layer raises), and
any other status returns `False`. -/
def update_rental_status (env : Env) (uid : Nat) (status : Int) : Env × Bool :=
  if status = 1 then
    let r := update_rental_status_new env uid "checkout_all"
    (r.1, r.2.1)
  else if status = 2 then
    let r := update_rental_status_new env uid "checkin_all"
    (r.1, r.2.1)
  else if status = 0 then
    match env.storage_fail with
    | some _ => (env, false)
    | none =>
      ({ env with db := { env.db with
          packages := env.db.packages.map (fun p =>
            if p.user_id == uid then { p with status := PkgStatus.available } else p)
          users := setUserStatus env.db.users uid 0 } }, true)
  else
    (env, false)

/-- Python's `f"{n:04d}"`: the decimal representation left-padded with `'0'`
to a width of at least 4. -/
def format04 (n : Nat) : String :=
  let s := Nat.repr n
  String.mk (List.replicate (4 - s.length) '0' ++ s.data)

/-- `is_code_unique` inside `generate_qr_code` (`qr_email_sender.py:128-131`):
`SELECT COUNT(*) FROM qr_codes WHERE qr_code_number = c` is zero — the
candidate collides with no stored code, active or not. -/
def is_code_unique (db : DB) (c : String) : Bool :=
  (db.qr_codes.filter (fun r => r.qr_code_number == c)).length == 0

/-- The currently active code numbers across all customers. -/
def activeCodes (db : DB) : List String :=
  (db.qr_codes.filter (fun r => r.is_active)).map (fun r => r.qr_code_number)

/-- `generate_qr_code` (`qr_email_sender.py:124-154`): up to
`max_attempts = 100` iterations, each drawing `random.randint(1, 9999)`
(modelled by the stream `draws`), formatting it `04d`, and breaking on the
first candidate unique among all stored codes; raises `ValueError` when all
100 attempts collide.  The PNG rendering has no effect on the returned code
number and is not modelled. -/
def generate_qr_code (db : DB) (draws : Nat → Nat) : Except String String :=
  match ((List.range 100).map (fun i => format04 (draws i))).find?
      (fun c => is_code_unique db c) with
  | some c => Except.ok c
  | none => Except.error "Failed to generate unique QR code after maximum attempts"

/-- The user's most recent `qr_codes` row:
`SELECT id FROM qr_codes WHERE user_id = %s ORDER BY created_at DESC LIMIT 1`
(`qr_email_sender.py:159`). -/
def latestQrRow (db : DB) (uid : Nat) : Option QrRow :=
  (db.qr_codes.filter (fun r => r.user_id == uid)).foldl
    (fun acc r =>
      match acc with
      | none => some r
      | some b => if b.created_seq < r.created_seq then some r else some b)
    none

/-- `_store_qr_in_database` (`qr_email_sender.py:156-184`): when the user
already has a QR row, the most recent row is UPDATEd in place with the new
code number, `is_active = TRUE` and a fresh `created_at` — the previous code
value is overwritten, not kept; otherwise a new active row is inserted.
Returns the affected row id. -/
def store_qr_in_database (db : DB) (uid : Nat) (qr_code_number : String) : DB × Nat :=
  match latestQrRow db uid with
  | some existing_qr =>
    ({ db with
        qr_codes := db.qr_codes.map (fun r =>
          if r.id == existing_qr.id then
            { r with qr_code_number := qr_code_number, is_active := true,
                     created_seq := db.clock }
          else r)
        clock := db.clock + 1 }, existing_qr.id)
  | none =>
    ({ db with
        qr_codes := db.qr_codes ++
          [{ id := db.next_qr_id, user_id := uid, qr_code_number := qr_code_number,
             is_active := true, created_seq := db.clock }]
        next_qr_id := db.next_qr_id + 1
        clock := db.clock + 1 }, db.next_qr_id)

/-- `verify_qr_code` (`db_handler.py:268-293`): joins `users` with the
`qr_codes` rows having the presented number and `is_active = TRUE`, and
`fetchone()` returns the first joined row or `None`. -/
def verify_qr_code (db : DB) (qr_code_number : String) : Option (UserRow × QrRow) :=
  ((db.qr_codes.filter (fun r => r.qr_code_number == qr_code_number && r.is_active)).filterMap
    (fun r => (db.users.find? (fun u => u.id == r.user_id)).map (fun u => (u, r)))).head?

/-- Outcome of `remove_units`. -/
inductive RemoveResult where
  | removed (ids : List Nat)
  | insufficientAvailable
deriving DecidableEq, Repr

/-- Modelled from the spec: `remove_units(customer_id, quantity) -> removed_ids`
has no implementation in the repository sources (no code deletes
`user_packages` rows short of a full table truncation), so it is modelled from
spec §4.2: delete up to `quantity` units currently `available` (never
`rented_out` units), failing with `InsufficientAvailable` and leaving the state
unchanged when fewer than `quantity` available units exist. -/
def remove_units (db : DB) (uid : Nat) (quantity : Nat) : DB × RemoveResult :=
  let avail :=
    sortPkgs (db.packages.filter (fun p => p.user_id == uid && p.status == PkgStatus.available))
  if avail.length < quantity then
    (db, RemoveResult.insufficientAvailable)
  else
    let removed_ids := (avail.take quantity).map (fun p => p.id)
    ({ db with packages := db.packages.filter (fun p => !(removed_ids.contains p.id)) },
     RemoveResult.removed removed_ids)

/-- A customer (id 1) with an empty inventory: the starting state of the
additivity scenario. -/
def dbEmptyInv : DB :=
  { users := [{ id := 1, rental_status := 0 }], packages := [], qr_codes := [],
    rentals := [], next_package_id := 0, next_qr_id := 0, next_rental_id := 0, clock := 0 }

/-- A customer (id 1) with two `rented_out` units. -/
def dbTwoRented : DB :=
  { users := [{ id := 1, rental_status := 1 }]
    packages :=
      [{ id := 0, user_id := 1, package_type := "A", status := PkgStatus.rented_out },
       { id := 1, user_id := 1, package_type := "A", status := PkgStatus.rented_out }]
    qr_codes := [], rentals := [], next_package_id := 2, next_qr_id := 0,
    next_rental_id := 0, clock := 0 }

/-- A customer (id 1) whose single unit is already `available`. -/
def dbOneAvail : DB :=
  { users := [{ id := 1, rental_status := 2 }]
    packages := [{ id := 0, user_id := 1, package_type := "A", status := PkgStatus.available }]
    qr_codes := [], rentals := [], next_package_id := 1, next_qr_id := 0,
    next_rental_id := 0, clock := 0 }

/-- A customer (id 1) with 2 `available` units and 1 `rented_out` unit. -/
def dbTwoOneMixed : DB :=
  { users := [{ id := 1, rental_status := 1 }]
    packages :=
      [{ id := 0, user_id := 1, package_type := "A", status := PkgStatus.available },
       { id := 1, user_id := 1, package_type := "A", status := PkgStatus.available },
       { id := 2, user_id := 1, package_type := "A", status := PkgStatus.rented_out }]
    qr_codes := [], rentals := [], next_package_id := 3, next_qr_id := 0,
    next_rental_id := 0, clock := 0 }

/-- A customer (id 1) holding the active code `"0005"`. -/
def dbQrOld : DB :=
  { users := [{ id := 1, rental_status := 0 }], packages := []
    qr_codes := [{ id := 10, user_id := 1, qr_code_number := "0005", is_active := true,
                   created_seq := 0 }]
    rentals := [], next_package_id := 0, next_qr_id := 11, next_rental_id := 0, clock := 1 }

/-- A database holding `"0005"` as a deactivated (inactive) code. -/
def dbQrInactive : DB :=
  { users := [{ id := 1, rental_status := 0 }], packages := []
    qr_codes := [{ id := 10, user_id := 1, qr_code_number := "0005", is_active := false,
                   created_seq := 0 }]
    rentals := [], next_package_id := 0, next_qr_id := 11, next_rental_id := 0, clock := 1 }

lemma filter_map_invariant {α : Type} (f : α → α) (p : α → Bool)
    (h : ∀ a, p (f a) = p a) :
    ∀ l : List α, (l.map f).filter p = (l.filter p).map f := by
  intro l
  induction l with
  | nil => rfl
  | cons a t ih =>
    simp only [List.map_cons, List.filter_cons, h a]
    cases hp : p a <;> simp [ih]

lemma summary_partition (l : List PackageUnit) (uid : Nat) :
    (l.filter (fun p => p.user_id == uid && p.status == PkgStatus.available)).length
      + (l.filter (fun p => p.user_id == uid && p.status == PkgStatus.rented_out)).length
      = (l.filter (fun p => p.user_id == uid)).length := by
  induction l with
  | nil => rfl
  | cons a t ih =>
    simp only [List.filter_cons]
    cases hu : (a.user_id == uid) <;> cases hs : a.status <;>
      simp [hu, hs, List.length_cons] <;> omega

lemma find?_setUserStatus (users : List UserRow) (uid v : Nat)
    (h : users.any (fun u => u.id == uid) = true) :
    ((setUserStatus users uid v).find? (fun u => u.id == uid)).map
      (fun u => u.rental_status) = some v := by
  induction users with
  | nil => simp at h
  | cons u t ih =>
    simp only [setUserStatus, List.map_cons] at *
    cases hu : (u.id == uid)
    · simp only [List.any_cons, hu, Bool.false_or] at h
      simpa [List.find?, hu, setUserStatus] using ih h
    · simp [List.find?, hu]

lemma filter_rented_after_reset (l : List PackageUnit) (uid : Nat) :
    (l.map (fun p =>
      if p.user_id == uid then { p with status := PkgStatus.available } else p)).filter
      (fun p => p.user_id == uid && p.status == PkgStatus.rented_out) = [] := by
  rw [List.filter_eq_nil_iff]
  intro x hx
  rcases List.mem_map.mp hx with ⟨a, _, rfl⟩
  cases hu : (a.user_id == uid) <;> simp [hu]

lemma mem_insertPkg (p q : PackageUnit) (l : List PackageUnit) :
    q ∈ insertPkg p l ↔ q = p ∨ q ∈ l := by
  induction l with
  | nil => simp [insertPkg]
  | cons a t ih =>
    simp only [insertPkg]
    cases h : pkgLe p a
    · simp only [h, Bool.false_eq_true, if_false, List.mem_cons, ih]
      tauto
    · simp only [h, if_true, List.mem_cons, ih]

lemma mem_sortPkgs (p : PackageUnit) (l : List PackageUnit) :
    p ∈ sortPkgs l ↔ p ∈ l := by
  induction l with
  | nil => simp [sortPkgs]
  | cons a t ih => simp [sortPkgs, mem_insertPkg, ih, List.mem_cons]

lemma length_insertPkg (p : PackageUnit) (l : List PackageUnit) :
    (insertPkg p l).length = l.length + 1 := by
  induction l with
  | nil => rfl
  | cons a t ih =>
    simp only [insertPkg]
    cases h : pkgLe p a <;> simp [ih]

lemma length_sortPkgs (l : List PackageUnit) : (sortPkgs l).length = l.length := by
  induction l with
  | nil => rfl
  | cons a t ih => simp [sortPkgs, length_insertPkg, ih]

lemma format04_length (n : Nat) (h : n ≤ 9999) : (format04 n).length = 4 := by
  have hlen : (Nat.repr n).length ≤ 4 := Nat.repr_length n 4 (by norm_num) (by omega)
  have hlen2 : (Nat.repr n).data.length ≤ 4 := hlen
  simp only [format04, String.length, String.mk, List.length_append, List.length_replicate]
  omega

/-- C3: for every customer and every database state, the summary satisfies
`available_packages + rented_packages = total_packages`,
`all_returned = (rented_packages == 0)` and `has_packages = (total_packages > 0)`;
for a customer with zero units it is the well-formed structure
`{total := 0, available := 0, rented := 0, all_returned := true, has_packages := false}`
(the function is total — it never yields a missing value). -/
theorem get_user_package_summary_invariants (db : DB) (uid : Nat) :
    ((get_user_package_summary db uid).available_packages
        + (get_user_package_summary db uid).rented_packages
      = (get_user_package_summary db uid).total_packages)
    ∧ (get_user_package_summary db uid).all_returned
        = decide ((get_user_package_summary db uid).rented_packages = 0)
    ∧ (get_user_package_summary db uid).has_packages
        = decide (0 < (get_user_package_summary db uid).total_packages)
    ∧ (db.packages.filter (fun p => p.user_id == uid) = [] →
        get_user_package_summary db uid =
          { total_packages := 0, available_packages := 0, rented_packages := 0,
            all_returned := true, has_packages := false }) := by
  have hpart := summary_partition db.packages uid
  refine ⟨hpart, ?_, rfl, ?_⟩
  · simp only [get_user_package_summary]
    by_cases h : 0 < (db.packages.filter (fun p => p.user_id == uid)).length
    · rw [if_pos h]
    · rw [if_neg h]
      have hr : (db.packages.filter
          (fun p => p.user_id == uid && p.status == PkgStatus.rented_out)).length = 0 := by
        omega
      simp [hr]
  · intro hnil
    have htot : (db.packages.filter (fun p => p.user_id == uid)).length = 0 := by
      rw [hnil]; rfl
    have ha : (db.packages.filter
        (fun p => p.user_id == uid && p.status == PkgStatus.available)).length = 0 := by
      omega
    have hr : (db.packages.filter
        (fun p => p.user_id == uid && p.status == PkgStatus.rented_out)).length = 0 := by
      omega
    simp [get_user_package_summary, htot, ha, hr]

/-- C3 witness: the invariants and the zero-unit shape at a concrete customer
with an empty inventory. -/
theorem get_user_package_summary_invariants_witness :
    get_user_package_summary dbEmptyInv 1 =
      { total_packages := 0, available_packages := 0, rented_packages := 0,
        all_returned := true, has_packages := false } :=
  (get_user_package_summary_invariants dbEmptyInv 1).2.2.2 (by decide)

/-- C4: `add_user_packages` is purely additive — for every prior state it
appends exactly `quantity` fresh `available` units for the customer, leaving
every pre-existing row untouched; and concretely
`add(c,"A",3); checkout(c,1); add(c,"B",2)` yields
`total = 5, available = 4, rented = 1`. -/
theorem add_user_packages_additive (db : DB) (uid : Nat) (pt : String) (q : Nat) :
    (∃ newPkgs : List PackageUnit,
      (add_user_packages db uid pt (q : Int)).1.packages = db.packages ++ newPkgs
      ∧ newPkgs.length = q
      ∧ (∀ p ∈ newPkgs,
          p.user_id = uid ∧ p.package_type = pt ∧ p.status = PkgStatus.available))
    ∧ (add_user_packages db uid pt (q : Int)).2 = true
    ∧ get_user_package_summary
        ((add_user_packages
          ((checkout_user_packages
            ((add_user_packages dbEmptyInv 1 "A" 3).1) 1 (some 1)).1) 1 "B" 2).1) 1
      = { total_packages := 5, available_packages := 4, rented_packages := 1,
          all_returned := false, has_packages := true } := by
  refine ⟨⟨(List.range q).map (fun i =>
    { id := db.next_package_id + i, user_id := uid, package_type := pt,
      status := PkgStatus.available }), ?_, ?_, ?_⟩, rfl, by decide⟩
  · simp [add_user_packages]
  · simp
  · intro p hp
    rcases List.mem_map.mp hp with ⟨i, _, rfl⟩
    exact ⟨rfl, rfl, rfl⟩

/-- C8 counterexample: `add_user_packages` with quantity 0 does not fail with
`InvalidQuantity` — it succeeds (returns `True`), inserting nothing and leaving
the state unchanged. -/
theorem add_user_packages_zero_quantity_counterexample :
    add_user_packages dbEmptyInv 1 "A" 0 = (dbEmptyInv, true) := by decide

/-- C8 amended: for every quantity that is not a positive integer the insert
loop body runs zero times, so `add_user_packages` creates no units and returns
success (`True`); the source contains no quantity validation and never fails
with `InvalidQuantity`. -/
theorem add_user_packages_nonpositive (db : DB) (uid : Nat) (pt : String) (q : Int)
    (hq : q ≤ 0) : add_user_packages db uid pt q = (db, true) := by
  have h0 : q.toNat = 0 := Int.toNat_of_nonpos hq
  simp [add_user_packages, h0]

/-- C8 amended witness: adding a negative quantity at a concrete state is a
successful no-op. -/
theorem add_user_packages_nonpositive_witness :
    add_user_packages dbEmptyInv 1 "A" (-3) = (dbEmptyInv, true) :=
  add_user_packages_nonpositive dbEmptyInv 1 "A" (-3) (by decide)

/-- C9: `reset_rental_status` forces every one of the customer's units to
`available` (whatever their current status), sets `rental_status` to 0
(not_active) on the customer's row, succeeds, and never reaches an email send;
concretely, resetting a customer with 2 rented units yields
`{available = 2, rented = 0}` with `rental_status = 0` and no thank-you
attempt, whereas `checkin("all")` from the same state attempts one. -/
theorem reset_rental_status_spec (db : DB) (uid : Nat)
    (h : (get_user_package_summary db uid).has_packages = true) :
    ((reset_rental_status db uid).2.success = true
      ∧ (reset_rental_status db uid).2.email_attempted = false
      ∧ (∀ p ∈ (reset_rental_status db uid).1.packages, p.user_id = uid →
          p.status = PkgStatus.available)
      ∧ (∀ u ∈ (reset_rental_status db uid).1.users, u.id = uid → u.rental_status = 0))
    ∧ (get_user_package_summary (reset_rental_status dbTwoRented 1).1 1
        = { total_packages := 2, available_packages := 2, rented_packages := 0,
            all_returned := true, has_packages := true }
      ∧ rentalStatusOf (reset_rental_status dbTwoRented 1).1 1 = some 0
      ∧ (reset_rental_status dbTwoRented 1).2.email_attempted = false
      ∧ (checkin_user_packages dbTwoRented 1 none).2.email_attempted = true) := by
  refine ⟨?_, by decide, by decide, by decide, by decide⟩
  have hcond : ¬((get_user_package_summary db uid).has_packages = false) := by simp [h]
  set db' : DB :=
    { db with
      packages := db.packages.map (fun p =>
        if p.user_id == uid then { p with status := PkgStatus.available } else p)
      users := setUserStatus db.users uid 0 } with hdb'
  have hrent : (get_user_package_summary db' uid).rented_packages = 0 := by
    simp only [get_user_package_summary, hdb']
    rw [filter_rented_after_reset]
    rfl
  have hne : ¬((get_user_package_summary db' uid).rented_packages ≠ 0) := by simp [hrent]
  have hres : reset_rental_status db uid =
      (db', { success := true, http_error := none, email_attempted := false }) := by
    simp only [reset_rental_status]
    rw [if_neg hcond, if_neg hne]
  rw [hres]
  refine ⟨rfl, rfl, ?_, ?_⟩
  · intro p hp hpu
    rcases List.mem_map.mp hp with ⟨a, _, rfl⟩
    cases hu : (a.user_id == uid) <;> simp [hu] at hpu ⊢
    exact absurd hpu (by simpa using hu)
  · intro u hu hid
    rcases List.mem_map.mp hu with ⟨a, _, rfl⟩
    cases hi : (a.id == uid) <;> simp [hi] at hid ⊢
    exact absurd hid (by simpa using hi)

/-- C1: after every successful checkin (bulk or partial) for an existing
customer, the recomputed state decides the outcome: if no unit is left
`rented_out` and the customer owns at least one unit, `rental_status` is set
to 2 (returned) and the thank-you (all-returned) email is attempted; if at
least one unit is still `rented_out`, `rental_status` is set to 1 (active) and
no email is attempted. -/
theorem checkin_user_packages_aggregate_rule (db : DB) (uid : Nat) (pc : Option Int)
    (hu : userExists db uid = true)
    (hs : (checkin_user_packages db uid pc).2.success = true) :
    (((get_user_package_summary (checkin_user_packages db uid pc).1 uid).rented_packages = 0
        ∧ 0 < (get_user_package_summary (checkin_user_packages db uid pc).1 uid).total_packages)
      → rentalStatusOf (checkin_user_packages db uid pc).1 uid = some 2
        ∧ (checkin_user_packages db uid pc).2.email_attempted = true)
    ∧ (0 < (get_user_package_summary (checkin_user_packages db uid pc).1 uid).rented_packages
      → rentalStatusOf (checkin_user_packages db uid pc).1 uid = some 1
        ∧ (checkin_user_packages db uid pc).2.email_attempted = false) := by
  simp only [checkin_user_packages] at hs ⊢
  split at hs
  case isTrue h1 => simp at hs
  case isFalse h1 =>
    split at hs
    case isTrue h2 => simp at hs
    case isFalse h2 =>
      split at hs
      case isTrue h3 => simp at hs
      case isFalse h3 =>
        rw [if_neg h1, if_neg h2, if_neg h3]
        simp only [get_user_package_summary, rentalStatusOf]
        have hT : 0 < (db.packages.filter (fun p => p.user_id == uid)).length :=
          Nat.pos_of_ne_zero h1
        constructor
        · rintro ⟨hzero, -⟩
          rw [hzero]
          refine ⟨?_, ?_⟩
          · simpa using find?_setUserStatus db.users uid 2 hu
          · simp [hT, hu]
        · intro hpos
          have hne := Nat.pos_iff_ne_zero.mp hpos
          rw [decide_eq_false hne]
          refine ⟨?_, ?_⟩
          · simpa using find?_setUserStatus db.users uid 1 hu
          · simp

/-- C1 witness: checking in all units of a customer with two rented units sets
`rental_status` 2 and attempts the thank-you email. -/
theorem checkin_user_packages_aggregate_rule_witness :
    rentalStatusOf (checkin_user_packages dbTwoRented 1 none).1 1 = some 2
    ∧ (checkin_user_packages dbTwoRented 1 none).2.email_attempted = true :=
  (checkin_user_packages_aggregate_rule dbTwoRented 1 none (by decide) (by decide)).1
    (by decide)

lemma any_id_setUserStatus (us : List UserRow) (uid v : Nat) :
    (setUserStatus us uid v).any (fun u => u.id == uid) = us.any (fun u => u.id == uid) := by
  induction us with
  | nil => rfl
  | cons a t ih =>
    simp only [setUserStatus] at ih ⊢
    simp only [List.map_cons, List.any_cons]
    rw [ih]
    cases h : (a.id == uid) <;> simp [h]

/-- C2 counterexample: with one unit already `available` (rented-out count 0,
so no >0 → 0 transition is possible), the single-unit direct status edit to
`available` still attempts the thank-you notification — the API entry point is
level-triggered, not edge-triggered. -/
theorem single_unit_edit_counterexample :
    (get_user_package_summary dbOneAvail 1).rented_packages = 0
    ∧ (update_package_status_api dbOneAvail 0 (some "available")).2.email_attempted = true := by
  decide

/-- C2 amended: the entry points do not share one edge-triggered rule.
`checkin("all" or any count)` on a customer whose units are all available fails
with "No rented packages to check in" and attempts no notification; but the
single-unit direct status edit is level-triggered: editing a unit to
`available` attempts the thank-you notification exactly when the owner's
recomputed summary afterwards has packages, is all-returned, and the owner's
row exists — regardless of whether the edit itself moved the rented-out count
from >0 to 0. -/
theorem notification_trigger_by_entry_point (db : DB) (uid pid : Nat) (pc : Option Int)
    (pkg : PackageUnit)
    (hsome : db.packages.filter (fun p => p.user_id == uid) ≠ [])
    (hnone : db.packages.filter
      (fun p => p.user_id == uid && p.status == PkgStatus.rented_out) = [])
    (hfind : db.packages.find? (fun p => p.id == pid) = some pkg) :
    checkin_user_packages db uid pc =
      (db, { success := false, message := "No rented packages to check in", count := 0,
             all_returned := true, email_attempted := false })
    ∧ ((update_package_status_api db pid (some "available")).2.email_attempted =
        ((get_user_package_summary
            { db with packages := db.packages.map (fun p =>
                if p.id == pid then { p with status := PkgStatus.available } else p) }
            pkg.user_id).has_packages
          && (get_user_package_summary
            { db with packages := db.packages.map (fun p =>
                if p.id == pid then { p with status := PkgStatus.available } else p) }
            pkg.user_id).all_returned
          && decide (0 < (get_user_package_summary
            { db with packages := db.packages.map (fun p =>
                if p.id == pid then { p with status := PkgStatus.available } else p) }
            pkg.user_id).total_packages)
          && userExists db pkg.user_id)) := by
  constructor
  · simp only [checkin_user_packages]
    have h1 : ¬((db.packages.filter (fun p => p.user_id == uid)).length = 0) := by
      intro h0
      exact hsome (List.length_eq_zero.mp h0)
    rw [if_neg h1, hnone]
    rw [if_pos (show sortPkgs [] = [] from rfl)]
  · have hne400 : ¬(("available" : String) ≠ "available" ∧ ("available" : String) ≠ "rented_out") := by
      simp
    simp only [update_package_status_api, update_package_status]
    rw [if_neg hne400]
    simp only [hfind]
    rw [if_neg hne400]
    simp only [beq_self_eq_true, if_true, reduceIte]
    by_cases hc : ((get_user_package_summary
        { db with packages := db.packages.map (fun p =>
            if p.id == pid then { p with status := PkgStatus.available } else p) }
        pkg.user_id).has_packages
      && (get_user_package_summary
        { db with packages := db.packages.map (fun p =>
            if p.id == pid then { p with status := PkgStatus.available } else p) }
        pkg.user_id).all_returned
      && decide (0 < (get_user_package_summary
        { db with packages := db.packages.map (fun p =>
            if p.id == pid then { p with status := PkgStatus.available } else p) }
        pkg.user_id).total_packages)) = true
    · rw [if_pos hc, hc]
      simp only [Bool.true_and]
      simp [userExists, any_id_setUserStatus]
    · rw [if_neg hc]
      rw [Bool.not_eq_true] at hc
      rw [hc]
      simp

/-- C2 amended witness: on the concrete all-available customer, bulk checkin
refuses with "No rented packages to check in" and no notification attempt. -/
theorem notification_trigger_by_entry_point_witness :
    checkin_user_packages dbOneAvail 1 none =
      (dbOneAvail, { success := false, message := "No rented packages to check in", count := 0,
                     all_returned := true, email_attempted := false }) :=
  (notification_trigger_by_entry_point dbOneAvail 1 0 none
    { id := 0, user_id := 1, package_type := "A", status := PkgStatus.available }
    (by decide) (by decide) (by decide)).1

/-- C10: `update_rental_status_new` never propagates an exception: a storage
failure raised inside the dispatched operation is caught and reported as
`(False, "Error: ...")`; a customer with no packages and an unrecognized
action string likewise produce `(False, message)` result values. -/
theorem update_rental_status_new_no_raise (env : Env) (uid : Nat) (action : String) :
    (∀ e, env.storage_fail = some e →
      update_rental_status_new env uid action =
        (env, (false, "Error: " ++ ("Database error: " ++ e))))
    ∧ (env.storage_fail = none →
      (get_user_package_summary env.db uid).has_packages = false →
      update_rental_status_new env uid action =
        (env, (false, "User has no packages in inventory")))
    ∧ (env.storage_fail = none →
      (get_user_package_summary env.db uid).has_packages = true →
      action ∉ (["checkout_all", "checkin_all", "checkout_one", "checkin_one"] : List String) →
      update_rental_status_new env uid action = (env, (false, "Invalid action: " ++ action))) := by
  refine ⟨?_, ?_, ?_⟩
  · intro e he
    simp [update_rental_status_new, update_rental_status_new_body,
      get_user_package_summaryE, he]
  · intro he hno
    simp [update_rental_status_new, update_rental_status_new_body,
      get_user_package_summaryE, he, hno]
  · intro he hhas hnotin
    simp only [List.mem_cons, List.mem_singleton, not_or] at hnotin
    obtain ⟨h1, h2, h3, h4, -⟩ := hnotin
    simp [update_rental_status_new, update_rental_status_new_body,
      get_user_package_summaryE, he, hhas, h1, h2, h3, h4]

/-- An environment whose storage layer fails with message "boom". -/
def envBoom : Env := { db := dbEmptyInv, storage_fail := some "boom" }

/-- C10 witness: with the storage layer failing, the wrapper returns the
caught-error pair instead of raising. -/
theorem update_rental_status_new_no_raise_witness :
    update_rental_status_new envBoom 1 "checkout_all" =
      (envBoom, (false, "Error: " ++ ("Database error: " ++ "boom"))) :=
  (update_rental_status_new_no_raise envBoom 1 "checkout_all").1 "boom" rfl

lemma is_code_unique_iff (db : DB) (c : String) :
    is_code_unique db c = true ↔ ∀ r ∈ db.qr_codes, r.qr_code_number ≠ c := by
  simp [is_code_unique, List.length_eq_zero, List.filter_eq_nil_iff]

/-- C5 counterexample: with `"0005"` stored only as a deactivated code, a draw
stream that always yields 5 produces the candidate `"0005"` — which is *not*
currently an active code for any customer — on every one of the 100 attempts,
yet `generate_qr_code` fails instead of returning it: the collision check runs
against all stored codes, not just active ones. -/
theorem generate_qr_code_counterexample :
    format04 5 = "0005"
    ∧ ¬("0005" ∈ activeCodes dbQrInactive)
    ∧ generate_qr_code dbQrInactive (fun _ => 5) =
        Except.error "Failed to generate unique QR code after maximum attempts" := by
  refine ⟨by decide, by decide, ?_⟩
  rfl

/-- C5 amended: `generate_qr_code` draws `random.randint(1, 9999)` formatted as
a 4-character zero-padded decimal string; any returned code collides with no
stored code whatsoever (in particular with no *active* code), retrying on each
collision with a fresh draw; and it fails — rather than returning a code —
exactly when every one of the 100 draws collides with some stored code (active
or deactivated), which in particular happens whenever all 100 draws are active
codes. -/
theorem generate_qr_code_contract (db : DB) (draws : Nat → Nat)
    (hd : ∀ i, i < 100 → 1 ≤ draws i ∧ draws i ≤ 9999) :
    (∀ c, generate_qr_code db draws = Except.ok c →
      (∃ n, 1 ≤ n ∧ n ≤ 9999 ∧ c = format04 n)
      ∧ c.length = 4
      ∧ (∀ r ∈ db.qr_codes, r.qr_code_number ≠ c)
      ∧ c ∉ activeCodes db)
    ∧ (generate_qr_code db draws =
          Except.error "Failed to generate unique QR code after maximum attempts"
        ↔ ∀ i, i < 100 → ¬(is_code_unique db (format04 (draws i)) = true))
    ∧ ((∀ i, i < 100 → format04 (draws i) ∈ activeCodes db) →
        generate_qr_code db draws =
          Except.error "Failed to generate unique QR code after maximum attempts") := by
  have hactive_collide : ∀ c, c ∈ activeCodes db → ¬(is_code_unique db c = true) := by
    intro c hc hu
    rcases List.mem_map.mp hc with ⟨r, hr, rfl⟩
    exact (is_code_unique_iff db r.qr_code_number).mp hu r (List.mem_of_mem_filter hr) rfl
  have hfind := fun (c : String) =>
    (List.find?_eq_none (l := (List.range 100).map (fun i => format04 (draws i)))
      (p := fun c => is_code_unique db c))
  refine ⟨?_, ?_, ?_⟩
  · intro c hok
    have hsome : ((List.range 100).map (fun i => format04 (draws i))).find?
        (fun c => is_code_unique db c) = some c := by
      rcases hcase : ((List.range 100).map (fun i => format04 (draws i))).find?
          (fun c => is_code_unique db c) with - | c'
      · simp only [generate_qr_code, hcase] at hok
        exact Except.noConfusion hok
      · simp only [generate_qr_code, hcase, Except.ok.injEq] at hok
        rw [hok]
    have hpred : is_code_unique db c = true := List.find?_some hsome
    have hmem : c ∈ (List.range 100).map (fun i => format04 (draws i)) :=
      List.mem_of_find?_eq_some hsome
    rcases List.mem_map.mp hmem with ⟨i, hi, rfl⟩
    have hi' : i < 100 := List.mem_range.mp hi
    obtain ⟨hlo, hhi⟩ := hd i hi'
    refine ⟨⟨draws i, hlo, hhi, rfl⟩, format04_length (draws i) hhi, ?_, ?_⟩
    · exact (is_code_unique_iff db _).mp hpred
    · intro hmem'
      exact hactive_collide _ hmem' hpred
  · constructor
    · intro herr i hi
      have hnone : ((List.range 100).map (fun j => format04 (draws j))).find?
          (fun c => is_code_unique db c) = none := by
        rcases hcase : ((List.range 100).map (fun j => format04 (draws j))).find?
            (fun c => is_code_unique db c) with - | c'
        · rfl
        · simp only [generate_qr_code, hcase] at herr
          exact Except.noConfusion herr
      exact List.find?_eq_none.mp hnone _
        (List.mem_map.mpr ⟨i, List.mem_range.mpr hi, rfl⟩)
    · intro hall
      have hnone : ((List.range 100).map (fun j => format04 (draws j))).find?
          (fun c => is_code_unique db c) = none := by
        apply List.find?_eq_none.mpr
        intro c hc
        rcases List.mem_map.mp hc with ⟨i, hi, rfl⟩
        exact hall i (List.mem_range.mp hi)
      simp only [generate_qr_code, hnone]
  · intro hall
    have hnone : ((List.range 100).map (fun j => format04 (draws j))).find?
        (fun c => is_code_unique db c) = none := by
      apply List.find?_eq_none.mpr
      intro c hc
      rcases List.mem_map.mp hc with ⟨i, hi, rfl⟩
      exact hactive_collide _ (hall i (List.mem_range.mp hi))
    simp only [generate_qr_code, hnone]

/-- C5 amended witness: a stream drawing 1, 2, 3, … on an empty code table
returns the zero-padded code "0001", which collides with nothing. -/
theorem generate_qr_code_contract_witness :
    (∃ n, 1 ≤ n ∧ n ≤ 9999 ∧ "0001" = format04 n)
    ∧ ("0001" : String).length = 4
    ∧ (∀ r ∈ dbEmptyInv.qr_codes, r.qr_code_number ≠ "0001")
    ∧ "0001" ∉ activeCodes dbEmptyInv :=
  (generate_qr_code_contract dbEmptyInv (fun i => i + 1)
    (by
      intro i hi
      refine ⟨Nat.le_add_left 1 i, ?_⟩
      show i + 1 ≤ 9999
      omega)).1 "0001" (by rfl)

lemma length_filter_and_le {α : Type} (p q : α → Bool) (l : List α) :
    (l.filter (fun a => p a && q a)).length ≤ (l.filter p).length := by
  induction l with
  | nil => simp
  | cons a t ih =>
    simp only [List.filter_cons]
    cases hp : p a <;> cases hq : q a <;> simp [hp, hq] <;> omega

/-- C6 counterexample: customer 1's code `"0005"` resolves before the
re-issue, but issuing a new code through `_store_qr_in_database` leaves *no*
record holding `"0005"` anywhere — the old code is overwritten in place, not
soft-deactivated and retained for audit as the claim states. -/
theorem store_qr_counterexample :
    (verify_qr_code dbQrOld "0005").isSome = true
    ∧ ((store_qr_in_database dbQrOld 1 "0042").1.qr_codes.all
        (fun r => r.qr_code_number != "0005")) = true := by
  decide

/-- C6 amended: issuing a new code through `_store_qr_in_database` overwrites
the customer's most recent QR row in place with the new number (active), so
the old code value is not retained; afterwards the old code no longer appears
in any row and resolves to `NotFound` (`none`), and a customer who had at most
one QR row still has at most one active code. -/
theorem store_qr_overwrites (db : DB) (uid : Nat) (row0 : QrRow)
    (oldCode newCode : String)
    (hlatest : latestQrRow db uid = some row0)
    (hold : ∀ r ∈ db.qr_codes, r.qr_code_number = oldCode → r.id = row0.id)
    (hne : newCode ≠ oldCode)
    (hone : (db.qr_codes.filter (fun r => r.user_id == uid)).length ≤ 1) :
    (∀ r ∈ (store_qr_in_database db uid newCode).1.qr_codes, r.qr_code_number ≠ oldCode)
    ∧ verify_qr_code (store_qr_in_database db uid newCode).1 oldCode = none
    ∧ ((store_qr_in_database db uid newCode).1.qr_codes.filter
        (fun r => r.user_id == uid && r.is_active)).length ≤ 1 := by
  simp only [store_qr_in_database, hlatest]
  have hnum : ∀ r ∈ (db.qr_codes.map (fun r =>
      if r.id == row0.id then
        { r with qr_code_number := newCode, is_active := true, created_seq := db.clock }
      else r)), r.qr_code_number ≠ oldCode := by
    intro r' hr'
    rcases List.mem_map.mp hr' with ⟨r, hr, rfl⟩
    cases h : (r.id == row0.id)
    · simp only [h, Bool.false_eq_true, if_false]
      intro hcontra
      have := hold r hr hcontra
      rw [this] at h
      simp at h
    · simp only [h, if_true]
      simpa using hne
  refine ⟨hnum, ?_, ?_⟩
  · have hfilter : ((db.qr_codes.map (fun r =>
        if r.id == row0.id then
          { r with qr_code_number := newCode, is_active := true, created_seq := db.clock }
        else r)).filter (fun r => r.qr_code_number == oldCode && r.is_active)) = [] := by
      rw [List.filter_eq_nil_iff]
      intro r hr
      simp only [Bool.and_eq_true, beq_iff_eq, not_and]
      intro hq
      exact absurd hq (hnum r hr)
    simp only [verify_qr_code, hfilter]
    rfl
  · have hpres : ∀ r : QrRow, ((if r.id == row0.id then
        { r with qr_code_number := newCode, is_active := true, created_seq := db.clock }
      else r).user_id == uid) = (r.user_id == uid) := by
      intro r
      cases h : (r.id == row0.id) <;> simp [h]
    calc ((db.qr_codes.map (fun r =>
          if r.id == row0.id then
            { r with qr_code_number := newCode, is_active := true, created_seq := db.clock }
          else r)).filter (fun r => r.user_id == uid && r.is_active)).length
        ≤ ((db.qr_codes.map (fun r =>
          if r.id == row0.id then
            { r with qr_code_number := newCode, is_active := true, created_seq := db.clock }
          else r)).filter (fun r => r.user_id == uid)).length :=
          length_filter_and_le _ _ _
      _ = ((db.qr_codes.filter (fun r => r.user_id == uid)).map (fun r =>
          if r.id == row0.id then
            { r with qr_code_number := newCode, is_active := true, created_seq := db.clock }
          else r)).length := by
          rw [filter_map_invariant _ _ hpres]
      _ = (db.qr_codes.filter (fun r => r.user_id == uid)).length := List.length_map _ _
      _ ≤ 1 := hone

/-- C6 amended witness: at the concrete one-row state, after issuing `"0042"`
the old code `"0005"` resolves to `none`. -/
theorem store_qr_overwrites_witness :
    verify_qr_code (store_qr_in_database dbQrOld 1 "0042").1 "0005" = none :=
  (store_qr_overwrites dbQrOld 1
    { id := 10, user_id := 1, qr_code_number := "0005", is_active := true, created_seq := 0 }
    "0005" "0042" (by decide) (by decide) (by decide) (by decide)).2.1

/-- C7 (spec-modelled): `remove_units` fails with `InsufficientAvailable` and
leaves the state unchanged whenever the customer has fewer than `quantity`
available units; on success it removes exactly `quantity` ids, each the id of
one of the customer's `available` units, and (given primary-key uniqueness of
the unit ids) never removes a `rented_out` unit; concretely, with 2 available
and 1 rented, `remove_units(c, 3)` fails leaving `{3, 2, 1}` unchanged. -/
theorem remove_units_spec (db : DB) (uid : Nat) (q : Nat)
    (hnd : (db.packages.map (fun p => p.id)).Nodup) :
    ((get_user_package_summary db uid).available_packages < q →
      remove_units db uid q = (db, RemoveResult.insufficientAvailable))
    ∧ (∀ ids, (remove_units db uid q).2 = RemoveResult.removed ids →
        ids.length = q
        ∧ (∀ i ∈ ids, ∃ p ∈ db.packages,
            p.id = i ∧ p.user_id = uid ∧ p.status = PkgStatus.available)
        ∧ (∀ p ∈ db.packages, p.status = PkgStatus.rented_out →
            p ∈ (remove_units db uid q).1.packages))
    ∧ remove_units dbTwoOneMixed 1 3 = (dbTwoOneMixed, RemoveResult.insufficientAvailable)
    ∧ get_user_package_summary dbTwoOneMixed 1 =
        { total_packages := 3, available_packages := 2, rented_packages := 1,
          all_returned := false, has_packages := true } := by
  have hlen : (sortPkgs (db.packages.filter
      (fun p => p.user_id == uid && p.status == PkgStatus.available))).length
      = (get_user_package_summary db uid).available_packages := by
    simp only [get_user_package_summary]
    exact length_sortPkgs _
  have hmem_avail : ∀ p, p ∈ sortPkgs (db.packages.filter
      (fun p => p.user_id == uid && p.status == PkgStatus.available)) →
      p ∈ db.packages ∧ p.user_id = uid ∧ p.status = PkgStatus.available := by
    intro p hp
    have hp' := (mem_sortPkgs p _).mp hp
    have h1 := List.mem_of_mem_filter hp'
    have h2 := List.of_mem_filter hp'
    simp only [Bool.and_eq_true, beq_iff_eq] at h2
    exact ⟨h1, h2.1, h2.2⟩
  refine ⟨?_, ?_, by decide, by decide⟩
  · intro hlt
    simp only [remove_units]
    rw [if_pos (by rw [hlen]; exact hlt)]
  · intro ids hr
    by_cases hlt : (sortPkgs (db.packages.filter
        (fun p => p.user_id == uid && p.status == PkgStatus.available))).length < q
    · simp only [remove_units] at hr
      rw [if_pos hlt] at hr
      exact absurd hr (by simp)
    · simp only [remove_units] at hr ⊢
      rw [if_neg hlt] at hr
      simp only at hr
      rw [if_neg hlt]
      have hids : ids = ((sortPkgs (db.packages.filter
          (fun p => p.user_id == uid && p.status == PkgStatus.available))).take q).map
          (fun p => p.id) := by
        cases hr
        rfl
      subst hids
      refine ⟨?_, ?_, ?_⟩
      · rw [List.length_map, List.length_take]
        omega
      · intro i hi
        rcases List.mem_map.mp hi with ⟨p, hp, rfl⟩
        have hp' := hmem_avail p (List.mem_of_mem_take hp)
        exact ⟨p, hp'.1, rfl, hp'.2⟩
      · intro p hp hrented
        simp only [List.mem_filter]
        refine ⟨hp, ?_⟩
        simp only [Bool.not_eq_true', Bool.not_eq_true]
        simp only [List.contains, List.elem_eq_mem, decide_eq_false_iff_not]
        intro hcontra
        rcases List.mem_map.mp hcontra with ⟨p', hp'take, hpid⟩
        have hp' := hmem_avail p' (List.mem_of_mem_take hp'take)
        have : p' = p := List.inj_on_of_nodup_map hnd hp'.1 hp hpid
        rw [this] at hp'
        rw [hrented] at hp'
        exact absurd hp'.2.2 (by simp)

/-- C7 witness: the concrete partial-removal rejection — 2 available, 1
rented, removing 3 fails and leaves the state untouched. -/
theorem remove_units_spec_witness :
    remove_units dbTwoOneMixed 1 3 = (dbTwoOneMixed, RemoveResult.insufficientAvailable) :=
  (remove_units_spec dbTwoOneMixed 1 3 (by decide)).2.2.1

/-- C9 witness: resetting the concrete two-rented-units customer succeeds with
no notification attempt. -/
theorem reset_rental_status_spec_witness :
    (reset_rental_status dbTwoRented 1).2.success = true
    ∧ (reset_rental_status dbTwoRented 1).2.email_attempted = false :=
  ⟨((reset_rental_status_spec dbTwoRented 1 (by decide)).1).1,
   ((reset_rental_status_spec dbTwoRented 1 (by decide)).1).2.1⟩
